import Mathlib

/-
Verification of the error-classification core in core/errors.go: the
registry of chain error codes, the temporary-code set and the classifier
errInfo, embedded shallowly as Lean definitions.
-/

set_option maxRecDepth 8000

/-- Modelled from the spec: a Go error value as seen by this layer.
The package chain/errors and the sentinel errors of the other subsystems
are not part of the embedded source file, so error values are modelled
from sections 3, 4.2 and 4.3 of the spec: a sentinel is a singleton
comparable identity; a sliceErr is an error whose underlying
representation embeds a slice and therefore cannot be used as a Go map
key; a wrap layer attaches free-form detail text to an underlying
error. -/
inductive GoErr : Type where
  | sentinel (id : Nat) : GoErr
  | sliceErr (data : List Nat) : GoErr
  | wrap (inner : GoErr) (detail : String) : GoErr
deriving DecidableEq, Repr

namespace errors

/-- Modelled from the spec: chain/errors.Root repeatedly unwraps any
wrapping, annotation or contextual layering until reaching a terminal
cause with no further underlying cause (spec 4.2). -/
def Root : GoErr → GoErr
  | .wrap inner _ => Root inner
  | .sentinel i => .sentinel i
  | .sliceErr l => .sliceErr l

/-- Modelled from the spec: chain/errors.Detail returns the free-form
explanatory text attached to the original (possibly wrapped) error by
the wrapping site, or the empty string when the subsystem supplied none
(spec 4.3 step 3). -/
def Detail : GoErr → String
  | .wrap _ d => d
  | .sentinel _ => ""
  | .sliceErr _ => ""

end errors

/-- Modelled from the spec: whether the underlying representation of an
error value is structurally suitable as a Go map lookup key. Per the
comment in errInfo, some types such as slices cannot be used as map
keys, and a lookup on such a value panics; the panic is modelled by
branching on this predicate. -/
def mapKeySafe : GoErr → Bool
  | .sliceErr _ => false
  | .sentinel _ => true
  | .wrap _ _ => true

/-- errorInfo contains a set of error codes to send to the user. -/
structure errorInfo : Type where
  HTTPStatus : Nat
  ChainCode : String
  Message : String
deriving DecidableEq, Repr

/-- detailedError is an errorInfo together with dynamic detail text and
the temporary flag. -/
structure detailedError : Type where
  errorInfo : errorInfo
  Detail : String
  Temporary : Bool
deriving DecidableEq, Repr

/-- temporaryErrorCodes, the map from chain code to bool in the source;
a missing key reads as the zero value false. -/
def temporaryErrorCodes : List (String × Bool) :=
  [("CH000", true),  -- internal server error
   ("CH001", true),  -- request timed out
   ("CH761", true)]  -- outputs currently reserved

/-- Reading the Go map temporaryErrorCodes at a key: the stored value
when present, the zero value false otherwise. -/
def temporaryLookup (c : String) : Bool :=
  (temporaryErrorCodes.lookup c).getD false

/-- infoInternal holds the codes we use for an internal error. -/
def infoInternal : errorInfo := ⟨500, "CH000", "Chain API Error"⟩

namespace context

/-- Modelled from the spec: sentinel error, deadline exceeded. -/
def DeadlineExceeded : GoErr := .sentinel 0

end context

namespace pg

/-- Modelled from the spec: sentinel error of the data store. -/
def ErrUserInputNotFound : GoErr := .sentinel 1

end pg

namespace httpjson

/-- Modelled from the spec: sentinel error, bad request body. -/
def ErrBadRequest : GoErr := .sentinel 2

end httpjson

/-- Modelled from the spec: sentinel error, bad request header. -/
def errBadReqHeader : GoErr := .sentinel 3

/-- Modelled from the spec: sentinel error, not found. -/
def errNotFound : GoErr := .sentinel 4

/-- Modelled from the spec: sentinel error, rate limited. -/
def errRateLimited : GoErr := .sentinel 5

/-- Modelled from the spec: sentinel error, leader election. -/
def errLeaderElection : GoErr := .sentinel 6

/-- Modelled from the spec: sentinel error, not authenticated. -/
def errNotAuthenticated : GoErr := .sentinel 7

/-- Modelled from the spec: sentinel error, core unconfigured. -/
def errUnconfigured : GoErr := .sentinel 8

/-- Modelled from the spec: sentinel error, already configured. -/
def errAlreadyConfigured : GoErr := .sentinel 9

/-- Modelled from the spec: sentinel error, bad generator. -/
def errBadGenerator : GoErr := .sentinel 10

/-- Modelled from the spec: sentinel error, bad block pub. -/
def errBadBlockPub : GoErr := .sentinel 11

namespace rpc

/-- Modelled from the spec: sentinel error, wrong network. -/
def ErrWrongNetwork : GoErr := .sentinel 12

end rpc

namespace protocol

/-- Modelled from the spec: sentinel error, height too far ahead. -/
def ErrTheDistantFuture : GoErr := .sentinel 13

end protocol

/-- Modelled from the spec: sentinel error, bad signer URL. -/
def errBadSignerURL : GoErr := .sentinel 14

/-- Modelled from the spec: sentinel error, bad signer pubkey. -/
def errBadSignerPubkey : GoErr := .sentinel 15

/-- Modelled from the spec: sentinel error, bad quorum. -/
def errBadQuorum : GoErr := .sentinel 16

/-- Modelled from the spec: sentinel error, reset in production. -/
def errProdReset : GoErr := .sentinel 17

/-- Modelled from the spec: sentinel error, no client tokens. -/
def errNoClientTokens : GoErr := .sentinel 18

namespace blocksigner

/-- Modelled from the spec: sentinel error, consensus change. -/
def ErrConsensusChange : GoErr := .sentinel 19

end blocksigner

namespace signers

/-- Modelled from the spec: sentinel error, bad quorum. -/
def ErrBadQuorum : GoErr := .sentinel 20

/-- Modelled from the spec: sentinel error, bad xpub. -/
def ErrBadXPub : GoErr := .sentinel 21

/-- Modelled from the spec: sentinel error, no xpubs. -/
def ErrNoXPubs : GoErr := .sentinel 22

/-- Modelled from the spec: sentinel error, bad type. -/
def ErrBadType : GoErr := .sentinel 23

end signers

namespace accesstoken

/-- Modelled from the spec: sentinel error, bad token id. -/
def ErrBadID : GoErr := .sentinel 24

/-- Modelled from the spec: sentinel error, bad token type. -/
def ErrBadType : GoErr := .sentinel 25

/-- Modelled from the spec: sentinel error, duplicate token id. -/
def ErrDuplicateID : GoErr := .sentinel 26

end accesstoken

/-- Modelled from the spec: sentinel error, current token. -/
def errCurrentToken : GoErr := .sentinel 27

namespace query

/-- Modelled from the spec: sentinel error, bad after. -/
def ErrBadAfter : GoErr := .sentinel 28

/-- Modelled from the spec: sentinel error, parameter count. -/
def ErrParameterCountMismatch : GoErr := .sentinel 29

end query

namespace filter

/-- Modelled from the spec: sentinel error, bad filter. -/
def ErrBadFilter : GoErr := .sentinel 30

end filter

namespace txbuilder

/-- Modelled from the spec: sentinel error, bad reference data. -/
def ErrBadRefData : GoErr := .sentinel 31

/-- Modelled from the spec: sentinel error, missing raw tx. -/
def ErrMissingRawTx : GoErr := .sentinel 32

/-- Modelled from the spec: sentinel error, bad instruction count. -/
def ErrBadInstructionCount : GoErr := .sentinel 33

/-- Modelled from the spec: sentinel error, bad tx input index. -/
def ErrBadTxInputIdx : GoErr := .sentinel 34

/-- Modelled from the spec: sentinel error, bad witness component. -/
def ErrBadWitnessComponent : GoErr := .sentinel 35

/-- Modelled from the spec: sentinel error, tx rejected. -/
def ErrRejected : GoErr := .sentinel 36

/-- Modelled from the spec: sentinel error, no sighash commitment. -/
def ErrNoTxSighashCommitment : GoErr := .sentinel 37

end txbuilder

/-- Modelled from the spec: sentinel error, bad action type. -/
def errBadActionType : GoErr := .sentinel 38

/-- Modelled from the spec: sentinel error, bad alias. -/
def errBadAlias : GoErr := .sentinel 39

/-- Modelled from the spec: sentinel error, bad action. -/
def errBadAction : GoErr := .sentinel 40

namespace utxodb

/-- Modelled from the spec: sentinel error, insufficient funds. -/
def ErrInsufficient : GoErr := .sentinel 41

/-- Modelled from the spec: sentinel error, outputs reserved. -/
def ErrReserved : GoErr := .sentinel 42

end utxodb

namespace mockhsm

/-- Modelled from the spec: sentinel error, duplicate key alias. -/
def ErrDuplicateKeyAlias : GoErr := .sentinel 43

/-- Modelled from the spec: sentinel error, invalid after. -/
def ErrInvalidAfter : GoErr := .sentinel 44

end mockhsm

/-- General error namespace (0xx) group of errorInfoTab. -/
def errorInfoTabGeneral : List (GoErr × errorInfo) :=
  [(context.DeadlineExceeded, ⟨408, "CH001", "Request timed out"⟩),
   (pg.ErrUserInputNotFound,  ⟨400, "CH002", "Not found"⟩),
   (httpjson.ErrBadRequest,   ⟨400, "CH003", "Invalid request body"⟩),
   (errBadReqHeader,          ⟨400, "CH004", "Invalid request header"⟩),
   (errNotFound,              ⟨404, "CH006", "Not found"⟩),
   (errRateLimited,           ⟨429, "CH007", "Request limit exceeded"⟩),
   (errLeaderElection,        ⟨503, "CH008", "Electing a new leader for the core; try again soon"⟩),
   (errNotAuthenticated,      ⟨401, "CH009", "Request could not be authenticated"⟩)]

/-- Core error namespace group of errorInfoTab. -/
def errorInfoTabCore : List (GoErr × errorInfo) :=
  [(errUnconfigured,                ⟨400, "CH100", "This core still needs to be configured"⟩),
   (errAlreadyConfigured,           ⟨400, "CH101", "This core has already been configured"⟩),
   (errBadGenerator,                ⟨400, "CH102", "Generator URL returned an invalid response"⟩),
   (errBadBlockPub,                 ⟨400, "CH103", "Provided Block XPub is invalid"⟩),
   (rpc.ErrWrongNetwork,            ⟨502, "CH104", "A peer core is operating on a different blockchain network"⟩),
   (protocol.ErrTheDistantFuture,   ⟨400, "CH105", "Requested height is too far ahead"⟩),
   (errBadSignerURL,                ⟨400, "CH106", "Block signer URL is invalid"⟩),
   (errBadSignerPubkey,             ⟨400, "CH107", "Block signer pubkey is invalid"⟩),
   (errBadQuorum,                   ⟨400, "CH108", "Quorum must be greater than 0 if there are signers"⟩),
   (errProdReset,                   ⟨400, "CH110", "Reset can only be called in a development system"⟩),
   (errNoClientTokens,              ⟨400, "CH120", "Cannot enable client authentication with no client tokens"⟩),
   (blocksigner.ErrConsensusChange, ⟨400, "CH150", "Refuse to sign block with consensus change"⟩)]

/-- Signers error namespace (2xx) group of errorInfoTab. -/
def errorInfoTabSigners : List (GoErr × errorInfo) :=
  [(signers.ErrBadQuorum, ⟨400, "CH200", "Quorum must be greater than 1 and less than or equal to the length of xpubs"⟩),
   (signers.ErrBadXPub,   ⟨400, "CH201", "Invalid xpub format"⟩),
   (signers.ErrNoXPubs,   ⟨400, "CH202", "At least one xpub is required"⟩),
   (signers.ErrBadType,   ⟨400, "CH203", "Retrieved type does not match expected type"⟩)]

/-- Access token error namespace (3xx) group of errorInfoTab. -/
def errorInfoTabAccessToken : List (GoErr × errorInfo) :=
  [(accesstoken.ErrBadID,       ⟨400, "CH300", "Malformed or empty access token id"⟩),
   (accesstoken.ErrBadType,     ⟨400, "CH301", "Access tokens must be type client or network"⟩),
   (accesstoken.ErrDuplicateID, ⟨400, "CH302", "Access token id is already in use"⟩),
   (errCurrentToken,            ⟨400, "CH310", "The access token used to authenticate this request cannot be deleted"⟩)]

/-- Query error namespace (6xx) group of errorInfoTab. -/
def errorInfoTabQuery : List (GoErr × errorInfo) :=
  [(query.ErrBadAfter,               ⟨400, "CH600", "Malformed pagination parameter `after`"⟩),
   (query.ErrParameterCountMismatch, ⟨400, "CH601", "Incorrect number of parameters to filter"⟩),
   (filter.ErrBadFilter,             ⟨400, "CH602", "Malformed query filter"⟩)]

/-- Build error namespace (70x) group of errorInfoTab. -/
def errorInfoTabBuild : List (GoErr × errorInfo) :=
  [(txbuilder.ErrBadRefData, ⟨400, "CH700", "Reference data does not match previous transaction\x27s reference data"⟩),
   (errBadActionType,        ⟨400, "CH701", "Invalid action type"⟩),
   (errBadAlias,             ⟨400, "CH702", "Invalid alias on action"⟩),
   (errBadAction,            ⟨400, "CH703", "Invalid action object"⟩)]

/-- Submit error namespace (73x) group of errorInfoTab. -/
def errorInfoTabSubmit : List (GoErr × errorInfo) :=
  [(txbuilder.ErrMissingRawTx,          ⟨400, "CH730", "Missing raw transaction"⟩),
   (txbuilder.ErrBadInstructionCount,   ⟨400, "CH731", "Too many signing instructions in template for transaction"⟩),
   (txbuilder.ErrBadTxInputIdx,         ⟨400, "CH732", "Invalid transaction input index"⟩),
   (txbuilder.ErrBadWitnessComponent,   ⟨400, "CH733", "Invalid witness component"⟩),
   (txbuilder.ErrRejected,              ⟨400, "CH735", "Transaction rejected"⟩),
   (txbuilder.ErrNoTxSighashCommitment, ⟨400, "CH736", "Transaction is not final, additional actions still allowed"⟩)]

/-- Account action error namespace (76x) group of errorInfoTab. -/
def errorInfoTabAccount : List (GoErr × errorInfo) :=
  [(utxodb.ErrInsufficient, ⟨400, "CH760", "Insufficient funds for tx"⟩),
   (utxodb.ErrReserved,     ⟨400, "CH761", "Some outputs are reserved; try again"⟩)]

/-- Mock HSM error namespace (80x) group of errorInfoTab. -/
def errorInfoTabMockHSM : List (GoErr × errorInfo) :=
  [(mockhsm.ErrDuplicateKeyAlias, ⟨400, "CH800", "Duplicate alias for Mock HSM key"⟩),
   (mockhsm.ErrInvalidAfter,      ⟨400, "CH801", "Invalid `after` in query"⟩)]

/-- errorInfoTab maps error values to standard chain error codes, in the
nine comment-delimited subsystem groups of the source. Missing entries
map to infoInternal. -/
def errorInfoTab : List (GoErr × errorInfo) :=
  errorInfoTabGeneral ++ errorInfoTabCore ++ errorInfoTabSigners ++
  errorInfoTabAccessToken ++ errorInfoTabQuery ++ errorInfoTabBuild ++
  errorInfoTabSubmit ++ errorInfoTabAccount ++ errorInfoTabMockHSM

/-- errInfo returns the HTTP status code to use and a suitable response
body describing err by consulting the global lookup table. If no entry
is found, it returns infoInternal. The deferred recover in the source
catches the panic a map lookup raises on a key whose underlying type is
not comparable; that path is modelled by the mapKeySafe test and
returns the hardcoded pair of the recover branch. -/
def errInfo (err : GoErr) : detailedError × errorInfo :=
  let root := errors.Root err
  if mapKeySafe root then
    let info := (errorInfoTab.lookup root).getD infoInternal
    (⟨info, errors.Detail err, temporaryLookup info.ChainCode⟩, info)
  else
    (⟨infoInternal, "", true⟩, infoInternal)


/-- Every value stored for a key in an association list appears among
the second components of the list. -/
theorem lookup_mem_snd {α β : Type} [BEq α] (k : α) (v : β) :
    ∀ l : List (α × β), l.lookup k = some v → v ∈ l.map Prod.snd := by
  intro l
  induction l with
  | nil => intro h; simp [List.lookup] at h
  | cons p t ih =>
    intro h
    rcases p with ⟨a, b⟩
    by_cases hk : (k == a) = true
    · simp only [List.lookup, hk] at h
      simp only [Option.some.injEq] at h
      exact h ▸ List.mem_cons_self _ _
    · simp only [Bool.not_eq_true] at hk
      simp only [List.lookup, hk] at h
      exact List.mem_cons_of_mem _ (ih h)

/-- Every registered pair of the table is found by lookup at its own
key, the key is usable as a map key, and the key is its own root. -/
theorem errorInfoTab_sound : ∀ p ∈ errorInfoTab,
    errorInfoTab.lookup p.1 = some p.2 ∧ mapKeySafe p.1 = true ∧
    errors.Root p.1 = p.1 := by
  decide

/-- C1: for every input error value — including one whose root cause is
unusable as a map lookup key — errInfo returns a well-formed pair whose
entry is either the default infoInternal or a registered entry, and in
the unsafe-key case the recover branch yields the default entry pair.
Totality (no panic, no propagated failure) is witnessed by errInfo
being a total Lean function covering the unsafe-key branch. -/
theorem errInfo_total_and_unsafe_default (err : GoErr) :
    ((errInfo err).2 = infoInternal ∨
      (errInfo err).2 ∈ errorInfoTab.map Prod.snd) ∧
    (mapKeySafe (errors.Root err) = false →
      errInfo err = (⟨infoInternal, "", true⟩, infoInternal)) := by
  constructor
  · by_cases h : mapKeySafe (errors.Root err) = true
    · cases hl : errorInfoTab.lookup (errors.Root err) with
      | none => left; simp [errInfo, h, hl]
      | some info =>
        right
        simpa [errInfo, h, hl] using lookup_mem_snd _ _ _ hl
    · left
      simp only [Bool.not_eq_true] at h
      simp [errInfo, h]
  · intro h
    simp [errInfo, h]

/-- Witness for C1 at a concrete slice-backed error. -/
theorem errInfo_total_and_unsafe_default_witness :
    mapKeySafe (errors.Root (GoErr.sliceErr [7])) = false ∧
    errInfo (GoErr.sliceErr [7]) = (⟨infoInternal, "", true⟩, infoInternal) :=
  ⟨by decide, (errInfo_total_and_unsafe_default (GoErr.sliceErr [7])).2 (by decide)⟩

/-- C2 counterexample: for the unregistered error sentinel 999 the
lookup completes without fault and finds no entry, yet the returned
entry message is "Chain API Error", not "API Error" as the claim
states. -/
theorem unregistered_message_counterexample :
    mapKeySafe (errors.Root (GoErr.sentinel 999)) = true ∧
    errorInfoTab.lookup (errors.Root (GoErr.sentinel 999)) = none ∧
    (errInfo (GoErr.sentinel 999)).2.Message ≠ "API Error" ∧
    (errInfo (GoErr.sentinel 999)).2.Message = "Chain API Error" := by
  decide

/-- C2 amended: for every error value whose root cause is not
registered and whose lookup completes without fault, errInfo returns
the default entry with HTTPStatus 500, Code CH000 and Message
"Chain API Error", with Temporary true and Detail equal to the detail
text of the input error itself. -/
theorem unregistered_maps_to_default (err : GoErr)
    (hsafe : mapKeySafe (errors.Root err) = true)
    (hmiss : errorInfoTab.lookup (errors.Root err) = none) :
    errInfo err =
      (⟨⟨500, "CH000", "Chain API Error"⟩, errors.Detail err, true⟩,
       ⟨500, "CH000", "Chain API Error"⟩) := by
  have ht : temporaryLookup "CH000" = true := by decide
  have hi : infoInternal = ⟨500, "CH000", "Chain API Error"⟩ := rfl
  simp [errInfo, hsafe, hmiss, ht, hi]

/-- Witness for the amended C2 at the concrete unregistered sentinel
999. -/
theorem unregistered_maps_to_default_witness :
    errInfo (GoErr.sentinel 999) =
      (⟨⟨500, "CH000", "Chain API Error"⟩, "", true⟩,
       ⟨500, "CH000", "Chain API Error"⟩) :=
  unregistered_maps_to_default (GoErr.sentinel 999) (by decide) (by decide)

/-- C3: for every root-cause error k registered in the registry,
errInfo k returns exactly the registered entry as both body header and
entry, with Detail equal to the detail text attached to k and Temporary
equal to the temporary-code map at the entry code. -/
theorem registered_root_exact : ∀ p ∈ errorInfoTab,
    errInfo p.1 =
      (⟨p.2, errors.Detail p.1, temporaryLookup p.2.ChainCode⟩, p.2) := by
  decide

/-- Witness for C3 at the registered deadline-exceeded entry. -/
theorem registered_root_exact_witness :
    (context.DeadlineExceeded,
      (⟨408, "CH001", "Request timed out"⟩ : errorInfo)) ∈ errorInfoTab ∧
    errInfo context.DeadlineExceeded =
      (⟨⟨408, "CH001", "Request timed out"⟩, "", true⟩,
       ⟨408, "CH001", "Request timed out"⟩) :=
  ⟨by decide,
   registered_root_exact
     (context.DeadlineExceeded, ⟨408, "CH001", "Request timed out"⟩)
     (by decide)⟩

/-- C4: wrapping a registered root cause with extra detail text leaves
the status, code and message of the root entry unchanged, while Detail
is extracted from the original wrapped error and equals the attached
extra detail. -/
theorem wrapped_registered_detail : ∀ p ∈ errorInfoTab, ∀ d : String,
    errInfo (GoErr.wrap p.1 d) =
      (⟨p.2, d, temporaryLookup p.2.ChainCode⟩, p.2) := by
  intro p hp d
  obtain ⟨h1, h2, h3⟩ := errorInfoTab_sound p hp
  have hr : errors.Root (GoErr.wrap p.1 d) = p.1 := by
    rw [show errors.Root (GoErr.wrap p.1 d) = errors.Root p.1 from rfl]
    exact h3
  simp [errInfo, hr, h2, h1, errors.Detail]

/-- Witness for C4 at the insufficient-funds entry wrapped with an
extra detail string. -/
theorem wrapped_registered_detail_witness :
    (utxodb.ErrInsufficient,
      (⟨400, "CH760", "Insufficient funds for tx"⟩ : errorInfo)) ∈ errorInfoTab ∧
    errInfo (GoErr.wrap utxodb.ErrInsufficient "extra detail") =
      (⟨⟨400, "CH760", "Insufficient funds for tx"⟩, "extra detail", false⟩,
       ⟨400, "CH760", "Insufficient funds for tx"⟩) :=
  ⟨by decide,
   wrapped_registered_detail
     (utxodb.ErrInsufficient, ⟨400, "CH760", "Insufficient funds for tx"⟩)
     (by decide) "extra detail"⟩

/-- C5: in every classification the returned Temporary flag equals the
temporary-code map at the resolved entry code, and that map holds
exactly for the codes CH000, CH001 and CH761; the flag depends only on
the code, never on the HTTP status. -/
theorem temporary_flag_membership :
    (∀ err : GoErr,
      (errInfo err).1.Temporary = temporaryLookup (errInfo err).2.ChainCode) ∧
    (∀ c : String,
      temporaryLookup c = true ↔ c = "CH000" ∨ c = "CH001" ∨ c = "CH761") := by
  constructor
  · intro err
    by_cases h : mapKeySafe (errors.Root err) = true
    · simp [errInfo, h]
    · have ht : temporaryLookup infoInternal.ChainCode = true := by decide
      simp only [Bool.not_eq_true] at h
      simp [errInfo, h, ht]
  · intro c
    by_cases h0 : c = "CH000"
    · subst h0; decide
    · by_cases h1 : c = "CH001"
      · subst h1; decide
      · by_cases h2 : c = "CH761"
        · subst h2; decide
        · have e0 : (c == "CH000") = false := beq_eq_false_iff_ne.mpr h0
          have e1 : (c == "CH001") = false := beq_eq_false_iff_ne.mpr h1
          have e2 : (c == "CH761") = false := beq_eq_false_iff_ne.mpr h2
          simp [temporaryLookup, temporaryErrorCodes, List.lookup,
                e0, e1, e2, h0, h1, h2]

/-- The numeric part of a chain code such as CH731, read as a decimal
number from the digit characters after the two-character CH prefix. -/
def codeNum (c : String) : Nat :=
  (c.data.drop 2).foldl (fun n ch => n * 10 + (ch.toNat - 48)) 0

/-- C6: scanning the entire registry table, no two entries share a Code
string, and the numeric part of every Code lies in the reserved range
of the comment-delimited subsystem group the source places it in. -/
theorem registry_codes_nodup_and_ranged :
    (errorInfoTab.map fun p => p.2.ChainCode).Nodup ∧
    (∀ p ∈ errorInfoTabGeneral, codeNum p.2.ChainCode ≤ 99) ∧
    (∀ p ∈ errorInfoTabCore,
      100 ≤ codeNum p.2.ChainCode ∧ codeNum p.2.ChainCode ≤ 199) ∧
    (∀ p ∈ errorInfoTabSigners,
      200 ≤ codeNum p.2.ChainCode ∧ codeNum p.2.ChainCode ≤ 299) ∧
    (∀ p ∈ errorInfoTabAccessToken,
      300 ≤ codeNum p.2.ChainCode ∧ codeNum p.2.ChainCode ≤ 399) ∧
    (∀ p ∈ errorInfoTabQuery,
      600 ≤ codeNum p.2.ChainCode ∧ codeNum p.2.ChainCode ≤ 699) ∧
    (∀ p ∈ errorInfoTabBuild,
      700 ≤ codeNum p.2.ChainCode ∧ codeNum p.2.ChainCode ≤ 709) ∧
    (∀ p ∈ errorInfoTabSubmit,
      730 ≤ codeNum p.2.ChainCode ∧ codeNum p.2.ChainCode ≤ 739) ∧
    (∀ p ∈ errorInfoTabAccount,
      760 ≤ codeNum p.2.ChainCode ∧ codeNum p.2.ChainCode ≤ 769) ∧
    (∀ p ∈ errorInfoTabMockHSM,
      800 ≤ codeNum p.2.ChainCode ∧ codeNum p.2.ChainCode ≤ 809) := by
  decide

/-- Witness for C6 at the deadline-exceeded entry of the general
group. -/
theorem registry_codes_nodup_and_ranged_witness :
    (context.DeadlineExceeded,
      (⟨408, "CH001", "Request timed out"⟩ : errorInfo)) ∈ errorInfoTabGeneral ∧
    codeNum "CH001" ≤ 99 :=
  ⟨by decide,
   registry_codes_nodup_and_ranged.2.1
     (context.DeadlineExceeded, ⟨408, "CH001", "Request timed out"⟩)
     (by decide)⟩

/-- C7: the four concrete scenarios of the spec, evaluated on the bare
sentinels: deadline exceeded, insufficient funds, outputs reserved and
bad xpub format. -/
theorem four_concrete_scenarios :
    errInfo context.DeadlineExceeded =
      (⟨⟨408, "CH001", "Request timed out"⟩, "", true⟩,
       ⟨408, "CH001", "Request timed out"⟩) ∧
    errInfo utxodb.ErrInsufficient =
      (⟨⟨400, "CH760", "Insufficient funds for tx"⟩, "", false⟩,
       ⟨400, "CH760", "Insufficient funds for tx"⟩) ∧
    errInfo utxodb.ErrReserved =
      (⟨⟨400, "CH761", "Some outputs are reserved; try again"⟩, "", true⟩,
       ⟨400, "CH761", "Some outputs are reserved; try again"⟩) ∧
    errInfo signers.ErrBadXPub =
      (⟨⟨400, "CH201", "Invalid xpub format"⟩, "", false⟩,
       ⟨400, "CH201", "Invalid xpub format"⟩) := by
  decide

/-- C8: errInfo is a deterministic, side-effect-free function of its
single input: it is embedded as a pure Lean function (the source reads
only the immutable process-wide tables), so two invocations on the same
error value produce identical output. -/
theorem errInfo_deterministic (e1 e2 : GoErr) (h : e1 = e2) :
    errInfo e1 = errInfo e2 := by
  rw [h]

/-- Witness for C8 at a concrete error value. -/
theorem errInfo_deterministic_witness :
    errInfo errNotFound = errInfo errNotFound :=
  errInfo_deterministic errNotFound errNotFound rfl

/-- C9: whenever the registry lookup faults because the root cause is
unusable as a map key, the recover branch returns Detail equal to the
empty string and Temporary hardcoded true, discarding any detail text
attached to the original error. -/
theorem recover_branch_discards_detail (err : GoErr)
    (h : mapKeySafe (errors.Root err) = false) :
    (errInfo err).1.Detail = "" ∧ (errInfo err).1.Temporary = true := by
  simp [errInfo, h]

/-- Witness for C9 at a wrapped slice-backed error carrying detail text
that the recover branch then discards. -/
theorem recover_branch_discards_detail_witness :
    mapKeySafe (errors.Root (GoErr.wrap (GoErr.sliceErr [3]) "attached")) = false ∧
    errors.Detail (GoErr.wrap (GoErr.sliceErr [3]) "attached") = "attached" ∧
    ((errInfo (GoErr.wrap (GoErr.sliceErr [3]) "attached")).1.Detail = "" ∧
     (errInfo (GoErr.wrap (GoErr.sliceErr [3]) "attached")).1.Temporary = true) :=
  ⟨by decide, by decide,
   recover_branch_discards_detail (GoErr.wrap (GoErr.sliceErr [3]) "attached")
     (by decide)⟩

/-- C10: on both the normal and the fault-recovery path, the errorInfo
embedded in the returned body is exactly the returned entry. -/
theorem body_entry_consistent (err : GoErr) :
    (errInfo err).1.errorInfo = (errInfo err).2 := by
  by_cases h : mapKeySafe (errors.Root err) = true
  · simp [errInfo, h]
  · simp only [Bool.not_eq_true] at h
    simp [errInfo, h]
